import Mathlib

/-!
Verification of the dispatch-plot renderer (`src/dispatch_plot.py`).

The script loads a CSV into a pandas DataFrame, slices one day of hourly
data, stacks area bands for solar, battery charge/discharge, optional
generator and lost load, overlays two line plots, and saves a PNG.

Shallow embedding choices:
* A pandas `DataFrame` is a rectangular table: a row count together with
  named columns of rational values (floats are modelled as `ℚ`).
* `data.iloc[start:end]` is list `drop`/`take` (Python slices clamp, they
  never raise).
* `daily_data[col]` raises `KeyError` when the column is absent; this is
  the constructor `PlotError.keyError`.
* `cumulative_outflow + daily_data[col]` adds a numpy array of length 24
  to a pandas series; a length mismatch raises `ValueError`
  (`PlotError.valueError`).  `ax.plot(x, ys)` likewise requires `ys` to
  have the length of `x` (24).
* Drawing is modelled by recording the draw commands (`fill_between` /
  `plot`) with their label and band boundaries; saving and printing are
  recorded as effects, and the effect of `savefig` on an abstract file
  system overwrites the file at the target path.
-/

/-- Errors the Python script can raise: `KeyError` from a missing column
lookup, `ValueError` from an array-length mismatch in arithmetic or
plotting. -/
inductive PlotError
  | keyError (column : String)
  | valueError
  deriving DecidableEq

/-- A pandas column: hourly numeric values. -/
abbrev Series := List ℚ

/-- The columns of a DataFrame: association list from column name to values. -/
abbrev Cols := List (String × Series)

/-- A pandas DataFrame: a rectangular table with named columns. -/
structure DataFrame where
  numRows : Nat
  cols : Cols
  rect : ∀ p ∈ cols, (Prod.snd p).length = numRows

/-- Python slice `xs[start:stop]` for `0 ≤ start ≤ stop` (clamping, never
failing), as used by `data.iloc[start_idx:end_idx]`. -/
def ilocSlice (xs : Series) (start stop : Nat) : Series :=
  (xs.drop start).take (stop - start)

/-- Row-slicing a DataFrame slices every column. -/
def sliceCols (cs : Cols) (start stop : Nat) : Cols :=
  cs.map (fun p => (p.1, ilocSlice p.2 start stop))

/-- Column access `frame[name]`: `KeyError` when the column is absent. -/
def getCol (cs : Cols) (name : String) : Except PlotError Series :=
  match List.lookup name cs with
  | some xs => Except.ok xs
  | none => Except.error (PlotError.keyError name)

/-- Unchecked elementwise sum of two series. -/
def seriesAddU (a b : Series) : Series :=
  List.zipWith (fun x y => x + y) a b

/-- Sum `acc + xs` of a numpy accumulator and a pandas series:
`ValueError` unless the lengths agree. -/
def seriesAdd (acc xs : Series) : Except PlotError Series :=
  if xs.length = acc.length then Except.ok (seriesAddU acc xs)
  else Except.error PlotError.valueError

/-- Elementwise negation, for the below-axis battery-charge band. -/
def seriesNeg (xs : Series) : Series := xs.map (fun a => -a)

/-- A drawing command issued to the axes object. -/
inductive DrawCmd
  | fillBetween (label : String) (lower upper : Series)
  | plotLine (label : String) (ys : Series)
  deriving DecidableEq

/-- An externally visible side effect of the script. -/
inductive Effect
  | savefig (path : String)
  | printMsg (msg : String)
  deriving DecidableEq

/-- The observable result of a successful `create_dispatch_plot` call:
the draw commands in order, the title, the final values of the two
running totals, and the side effects in order. -/
structure Output where
  cmds : List DrawCmd
  title : String
  cumulativeOutflow : Series
  cumulativeInflow : Series
  effects : List Effect
  deriving DecidableEq

/-- Mutable plotting state threaded through the layers: commands issued
so far and the two running totals. -/
structure PlotState where
  cmds : List DrawCmd
  outflow : Series
  inflow : Series
  deriving DecidableEq

/-- Number of rows per day in the CSV. -/
def hoursPerDay : Nat := 24

/-- `np.zeros(hours_per_day)`. -/
def zeros : Series := List.replicate hoursPerDay 0

/-- The fixed path `plt.savefig` writes to. -/
def savePath : String := "results/dispatch_plot.png"

/-- The exact confirmation message printed after saving. -/
def confirmationMessage : String :=
  "Dispatch plot saved as dispatch_plot.png in expected_values/results folder"

/-- One stacked outflow layer: look the column up in the day slice, draw
a band from the running outflow total to the total plus the column, then
advance the total (the `fill_between` / `+=` pairs for Solar Production,
Battery Discharge and Generator). -/
def outflowLayer (daily : Cols) (col label : String) (st : PlotState) :
    Except PlotError PlotState :=
  match getCol daily col with
  | Except.error e => Except.error e
  | Except.ok v =>
    match seriesAdd st.outflow v with
    | Except.error e => Except.error e
    | Except.ok upper =>
      Except.ok { st with
        cmds := st.cmds ++ [DrawCmd.fillBetween label st.outflow upper],
        outflow := upper }

/-- The battery-charge layer: a band below the axis from the negated
inflow total down to the negated inflow total plus charge, then the
inflow total advances. -/
def chargeLayer (daily : Cols) (st : PlotState) : Except PlotError PlotState :=
  match getCol daily ("Battery Charge (kWh)") with
  | Except.error e => Except.error e
  | Except.ok v =>
    match seriesAdd st.inflow v with
    | Except.error e => Except.error e
    | Except.ok s =>
      Except.ok { st with
        cmds := st.cmds ++
          [DrawCmd.fillBetween ("Battery Charging") (seriesNeg st.inflow) (seriesNeg s)],
        inflow := s }

/-- The lost-load layer: a band from the running outflow total to the
total plus lost load.  The Python source does not advance
`cumulative_outflow` after this last `fill_between`. -/
def lostLoadLayer (daily : Cols) (st : PlotState) : Except PlotError PlotState :=
  match getCol daily ("Lost Load (kWh)") with
  | Except.error e => Except.error e
  | Except.ok v =>
    match seriesAdd st.outflow v with
    | Except.error e => Except.error e
    | Except.ok upper =>
      Except.ok { st with
        cmds := st.cmds ++ [DrawCmd.fillBetween ("Lost Load") st.outflow upper] }

/-- Line plot `ax.plot(x, ys)` with `x = range(24)`: `ValueError` unless
`ys` has 24 entries. -/
def plotSeries (label : String) (ys : Series) : Except PlotError DrawCmd :=
  if ys.length = hoursPerDay then Except.ok (DrawCmd.plotLine label ys)
  else Except.error PlotError.valueError

/-- The day slice `data.iloc[day*24 : day*24 + 24]` taken by
`create_dispatch_plot`. -/
def daySlice (data : DataFrame) (day : Nat) : Cols :=
  sliceCols data.cols (day * hoursPerDay) (day * hoursPerDay + hoursPerDay)

/-- Embedding of `create_dispatch_plot(data, day, has_generator)`. -/
def create_dispatch_plot (data : DataFrame) (day : Nat)
    (has_generator : Bool) : Except PlotError Output :=
  let daily_data := daySlice data day
  match outflowLayer daily_data ("Solar Production (kWh)") ("Solar Production")
      { cmds := [], outflow := zeros, inflow := zeros } with
  | Except.error e => Except.error e
  | Except.ok st1 =>
    match chargeLayer daily_data st1 with
    | Except.error e => Except.error e
    | Except.ok st2 =>
      match outflowLayer daily_data ("Battery Discharge (kWh)")
          ("Battery Discharging") st2 with
      | Except.error e => Except.error e
      | Except.ok st3 =>
        match (if has_generator then
            outflowLayer daily_data ("Generator Production (kWh)") ("Generator") st3
          else Except.ok st3) with
        | Except.error e => Except.error e
        | Except.ok st4 =>
          match lostLoadLayer daily_data st4 with
          | Except.error e => Except.error e
          | Except.ok st5 =>
            match getCol daily_data ("Load (kWh)") with
            | Except.error e => Except.error e
            | Except.ok loadS =>
              match plotSeries ("Load") loadS with
              | Except.error e => Except.error e
              | Except.ok loadCmd =>
                match getCol daily_data ("Solar Production (kWh)") with
                | Except.error e => Except.error e
                | Except.ok solarS =>
                  match getCol daily_data ("Curtailment (kWh)") with
                  | Except.error e => Except.error e
                  | Except.ok curtS =>
                    match plotSeries ("Max Solar Production")
                        (seriesAddU solarS curtS) with
                    | Except.error e => Except.error e
                    | Except.ok maxCmd =>
                      Except.ok {
                        cmds := st5.cmds ++ [loadCmd, maxCmd],
                        title := "Dispatch Plot - Day " ++ toString (day + 1),
                        cumulativeOutflow := st5.outflow,
                        cumulativeInflow := st5.inflow,
                        effects := [Effect.savefig savePath,
                                    Effect.printMsg confirmationMessage] }

/-- The script's single invocation: `create_dispatch_plot(data, day=0,
has_generator=False)` at module top level, with no exception handler. -/
def script (data : DataFrame) : Except PlotError Output :=
  create_dispatch_plot data 0 false

/-- Abstract file system: path to file contents. -/
abbrev FileSystem := String → Option String

/-- Contents of the rendered image file. -/
def imageContent : String := "PNG"

/-- Semantics of one effect on the file system: `savefig` writes the
image at its path, replacing whatever was there (matplotlib overwrites);
printing does not touch the file system. -/
def applyEffect (fs : FileSystem) : Effect → FileSystem
  | Effect.savefig p => fun q => if q = p then some imageContent else fs q
  | Effect.printMsg _ => fs

/-- Semantics of a list of effects, applied left to right. -/
def applyEffects (es : List Effect) (fs : FileSystem) : FileSystem :=
  es.foldl applyEffect fs

/-- The columns `create_dispatch_plot` accesses, in access order;
`Generator Production (kWh)` only when the generator flag is set. -/
def expectedColumns (has_generator : Bool) : List String :=
  ["Solar Production (kWh)", "Battery Charge (kWh)", "Battery Discharge (kWh)"]
    ++ (if has_generator then ["Generator Production (kWh)"] else [])
    ++ ["Lost Load (kWh)", "Load (kWh)", "Curtailment (kWh)"]

/-- Column `name` is present in the table. -/
def hasCol (cs : Cols) (name : String) : Prop :=
  (List.lookup name cs).isSome = true

instance (cs : Cols) (name : String) : Decidable (hasCol cs name) := by
  unfold hasCol; infer_instance

deriving instance DecidableEq for Except

/-! ### Basic lemmas about the table operations -/

/-- Length of a Python slice. -/
theorem length_ilocSlice (xs : Series) (start stop : Nat) :
    (ilocSlice xs start stop).length = min (stop - start) (xs.length - start) := by
  simp [ilocSlice]

/-- Looking a column up in a row-sliced table slices the column. -/
theorem lookup_sliceCols (n : String) (cs : Cols) (a b : Nat) :
    List.lookup n (sliceCols cs a b) =
      Option.map (fun xs => ilocSlice xs a b) (List.lookup n cs) := by
  induction cs with
  | nil => rfl
  | cons p rest ih =>
    rcases p with ⟨k, v⟩
    rw [sliceCols, List.map_cons]
    rw [List.lookup_cons, List.lookup_cons]
    cases h : (n == k) with
    | true => rfl
    | false => simpa [sliceCols] using ih

/-- A successful lookup returns one of the stored columns. -/
theorem exists_mem_of_lookup {cs : Cols} {n : String} {xs : Series}
    (h : List.lookup n cs = some xs) : ∃ k, (k, xs) ∈ cs := by
  induction cs with
  | nil => simp at h
  | cons p rest ih =>
    rcases p with ⟨k, v⟩
    rw [List.lookup_cons] at h
    cases hk : (n == k) with
    | true =>
      rw [hk] at h
      exact ⟨k, by simp_all⟩
    | false =>
      rw [hk] at h
      obtain ⟨k', hk'⟩ := ih h
      exact ⟨k', List.mem_cons_of_mem _ hk'⟩

/-- Every column of a DataFrame has the row count as its length. -/
theorem lookup_length (data : DataFrame) {n : String} {xs : Series}
    (h : List.lookup n data.cols = some xs) : xs.length = data.numRows := by
  obtain ⟨k, hk⟩ := exists_mem_of_lookup h
  exact data.rect (k, xs) hk

/-- The day slice of a full-length column has exactly 24 entries. -/
theorem length_daySlice_col (data : DataFrame) (day : Nat) {n : String} {xs : Series}
    (h : List.lookup n data.cols = some xs)
    (hrows : (day + 1) * 24 ≤ data.numRows) :
    (ilocSlice xs (day * hoursPerDay) (day * hoursPerDay + hoursPerDay)).length = 24 := by
  rw [length_ilocSlice, lookup_length data h, hoursPerDay]
  omega

/-- Entry `h` of the day slice is entry `24 * day + h` of the column. -/
theorem getD_ilocSlice (xs : Series) (s t h : Nat) (h1 : h < t - s)
    (_h2 : s + h < xs.length) :
    (ilocSlice xs s t).getD h 0 = xs.getD (s + h) 0 := by
  rw [ilocSlice, List.getD_eq_getElem?_getD, List.getD_eq_getElem?_getD]
  rw [List.getElem?_take_of_lt h1, List.getElem?_drop]

/-- Length of the unchecked elementwise sum. -/
theorem length_seriesAddU (a b : Series) :
    (seriesAddU a b).length = min a.length b.length := by
  simp [seriesAddU]

/-- Entry of the unchecked elementwise sum. -/
theorem getD_seriesAddU (a b : Series) (h : Nat) (ha : h < a.length)
    (hb : h < b.length) :
    (seriesAddU a b).getD h 0 = a.getD h 0 + b.getD h 0 := by
  rw [seriesAddU, List.getD_eq_getElem?_getD, List.getD_eq_getElem?_getD,
    List.getD_eq_getElem?_getD, List.getElem?_zipWith]
  rw [List.getElem?_eq_getElem ha, List.getElem?_eq_getElem hb]
  rfl

/-- Length of `np.zeros(24)`. -/
theorem length_zeros : zeros.length = 24 := by simp [zeros, hoursPerDay]

/-- Entries of `np.zeros(24)`. -/
theorem getD_zeros (h : Nat) : zeros.getD h 0 = 0 := by
  rw [zeros, List.getD_eq_getElem?_getD, List.getElem?_replicate]
  cases Nat.decLt h hoursPerDay with
  | isTrue hlt => simp [hlt]
  | isFalse hge => simp [hge]

/-! ### Shape of a successful run

Under the hypotheses that the accessed columns are present in the day
slice with 24 entries each, `create_dispatch_plot` succeeds and the
whole output is determined.  One lemma per generator-flag value. -/

/-- Successful run without the generator layer. -/
theorem create_ok_shape_false (data : DataFrame) (day : Nat)
    (sS sC sB sL sLd sCt : Series)
    (hS : List.lookup ("Solar Production (kWh)") (daySlice data day) = some sS)
    (hC : List.lookup ("Battery Charge (kWh)") (daySlice data day) = some sC)
    (hB : List.lookup ("Battery Discharge (kWh)") (daySlice data day) = some sB)
    (hL : List.lookup ("Lost Load (kWh)") (daySlice data day) = some sL)
    (hLd : List.lookup ("Load (kWh)") (daySlice data day) = some sLd)
    (hCt : List.lookup ("Curtailment (kWh)") (daySlice data day) = some sCt)
    (hlS : sS.length = 24) (hlC : sC.length = 24) (hlB : sB.length = 24)
    (hlL : sL.length = 24) (hlLd : sLd.length = 24) (hlCt : sCt.length = 24) :
    create_dispatch_plot data day false = Except.ok {
      cmds := [
        DrawCmd.fillBetween ("Solar Production") zeros (seriesAddU zeros sS),
        DrawCmd.fillBetween ("Battery Charging") (seriesNeg zeros)
          (seriesNeg (seriesAddU zeros sC)),
        DrawCmd.fillBetween ("Battery Discharging") (seriesAddU zeros sS)
          (seriesAddU (seriesAddU zeros sS) sB),
        DrawCmd.fillBetween ("Lost Load") (seriesAddU (seriesAddU zeros sS) sB)
          (seriesAddU (seriesAddU (seriesAddU zeros sS) sB) sL),
        DrawCmd.plotLine ("Load") sLd,
        DrawCmd.plotLine ("Max Solar Production") (seriesAddU sS sCt)],
      title := "Dispatch Plot - Day " ++ toString (day + 1),
      cumulativeOutflow := seriesAddU (seriesAddU zeros sS) sB,
      cumulativeInflow := seriesAddU zeros sC,
      effects := [Effect.savefig savePath, Effect.printMsg confirmationMessage] } := by
  have l0 : zeros.length = 24 := length_zeros
  have l1 : (seriesAddU zeros sS).length = 24 := by
    rw [length_seriesAddU, l0, hlS]; omega
  have l2 : (seriesAddU (seriesAddU zeros sS) sB).length = 24 := by
    rw [length_seriesAddU, l1, hlB]; omega
  have l3 : (seriesAddU sS sCt).length = 24 := by
    rw [length_seriesAddU, hlS, hlCt]; omega
  simp [create_dispatch_plot, outflowLayer, chargeLayer, lostLoadLayer,
    plotSeries, getCol, seriesAdd, hS, hC, hB, hL, hLd, hCt,
    hlS, hlC, hlB, hlL, hlLd, hlCt, l0, l1, l2, l3, hoursPerDay]

/-- Successful run with the generator layer. -/
theorem create_ok_shape_true (data : DataFrame) (day : Nat)
    (sS sC sB sG sL sLd sCt : Series)
    (hS : List.lookup ("Solar Production (kWh)") (daySlice data day) = some sS)
    (hC : List.lookup ("Battery Charge (kWh)") (daySlice data day) = some sC)
    (hB : List.lookup ("Battery Discharge (kWh)") (daySlice data day) = some sB)
    (hG : List.lookup ("Generator Production (kWh)") (daySlice data day) = some sG)
    (hL : List.lookup ("Lost Load (kWh)") (daySlice data day) = some sL)
    (hLd : List.lookup ("Load (kWh)") (daySlice data day) = some sLd)
    (hCt : List.lookup ("Curtailment (kWh)") (daySlice data day) = some sCt)
    (hlS : sS.length = 24) (hlC : sC.length = 24) (hlB : sB.length = 24)
    (hlG : sG.length = 24) (hlL : sL.length = 24) (hlLd : sLd.length = 24)
    (hlCt : sCt.length = 24) :
    create_dispatch_plot data day true = Except.ok {
      cmds := [
        DrawCmd.fillBetween ("Solar Production") zeros (seriesAddU zeros sS),
        DrawCmd.fillBetween ("Battery Charging") (seriesNeg zeros)
          (seriesNeg (seriesAddU zeros sC)),
        DrawCmd.fillBetween ("Battery Discharging") (seriesAddU zeros sS)
          (seriesAddU (seriesAddU zeros sS) sB),
        DrawCmd.fillBetween ("Generator") (seriesAddU (seriesAddU zeros sS) sB)
          (seriesAddU (seriesAddU (seriesAddU zeros sS) sB) sG),
        DrawCmd.fillBetween ("Lost Load")
          (seriesAddU (seriesAddU (seriesAddU zeros sS) sB) sG)
          (seriesAddU (seriesAddU (seriesAddU (seriesAddU zeros sS) sB) sG) sL),
        DrawCmd.plotLine ("Load") sLd,
        DrawCmd.plotLine ("Max Solar Production") (seriesAddU sS sCt)],
      title := "Dispatch Plot - Day " ++ toString (day + 1),
      cumulativeOutflow := seriesAddU (seriesAddU (seriesAddU zeros sS) sB) sG,
      cumulativeInflow := seriesAddU zeros sC,
      effects := [Effect.savefig savePath, Effect.printMsg confirmationMessage] } := by
  have l0 : zeros.length = 24 := length_zeros
  have l1 : (seriesAddU zeros sS).length = 24 := by
    rw [length_seriesAddU, l0, hlS]; omega
  have l2 : (seriesAddU (seriesAddU zeros sS) sB).length = 24 := by
    rw [length_seriesAddU, l1, hlB]; omega
  have l2G : (seriesAddU (seriesAddU (seriesAddU zeros sS) sB) sG).length = 24 := by
    rw [length_seriesAddU, l2, hlG]; omega
  have l3 : (seriesAddU sS sCt).length = 24 := by
    rw [length_seriesAddU, hlS, hlCt]; omega
  simp [create_dispatch_plot, outflowLayer, chargeLayer, lostLoadLayer,
    plotSeries, getCol, seriesAdd, hS, hC, hB, hG, hL, hLd, hCt,
    hlS, hlC, hlB, hlG, hlL, hlLd, hlCt, l0, l1, l2, l2G, l3, hoursPerDay]

/-! ### Error paths -/

/-- Lookup in the day slice of a present column. -/
theorem lookup_daySlice_some (data : DataFrame) (day : Nat) {n : String}
    {xs : Series} (h : List.lookup n data.cols = some xs) :
    List.lookup n (daySlice data day) =
      some (ilocSlice xs (day * hoursPerDay) (day * hoursPerDay + hoursPerDay)) := by
  rw [daySlice, lookup_sliceCols, h]; rfl

/-- Lookup in the day slice of an absent column. -/
theorem lookup_daySlice_none (data : DataFrame) (day : Nat) {n : String}
    (h : List.lookup n data.cols = none) :
    List.lookup n (daySlice data day) = none := by
  rw [daySlice, lookup_sliceCols, h]; rfl

/-- When the table has the solar column but fewer than `(day+1)*24` rows,
the very first broadcast `cumulative_outflow + daily_data[...]` fails with
`ValueError` (the day slice is shorter than the 24-entry accumulator). -/
theorem create_valueError_of_short (data : DataFrame) (day : Nat) (g : Bool)
    (hS : hasCol data.cols ("Solar Production (kWh)"))
    (hrows : data.numRows < (day + 1) * 24) :
    create_dispatch_plot data day g = Except.error PlotError.valueError := by
  rw [hasCol, Option.isSome_iff_exists] at hS
  obtain ⟨xs, hxs⟩ := hS
  have hslice := lookup_daySlice_some data day hxs
  have hlen : (ilocSlice xs (day * hoursPerDay)
      (day * hoursPerDay + hoursPerDay)).length ≠ 24 := by
    rw [length_ilocSlice, lookup_length data hxs, hoursPerDay]
    omega
  simp [create_dispatch_plot, outflowLayer, getCol, seriesAdd, hslice,
    length_zeros, hlen]

/-- The run failed with a `KeyError`. -/
def isKeyError : Except PlotError Output → Bool
  | Except.error (PlotError.keyError _) => true
  | _ => false

/-- When the table has at least `(day+1)*24` rows but one of the columns
the call accesses is absent, the run fails with a `KeyError` (the first
absent column in access order is looked up before any length check can
fail). -/
theorem create_keyError_of_missing (data : DataFrame) (day : Nat) (g : Bool)
    (c : String) (hc : c ∈ expectedColumns g) (hmiss : ¬ hasCol data.cols c)
    (hrows : (day + 1) * 24 ≤ data.numRows) :
    isKeyError (create_dispatch_plot data day g) = true := by
  have len24 : ∀ {n : String} {xs : Series}, List.lookup n data.cols = some xs →
      (ilocSlice xs (day * 24) (day * 24 + 24)).length = 24 := by
    intro n xs h
    have h2 := length_daySlice_col data day h hrows
    simpa [hoursPerDay] using h2
  have slsome : ∀ {n : String} {xs : Series}, List.lookup n data.cols = some xs →
      List.lookup n (daySlice data day) = some (ilocSlice xs (day * 24) (day * 24 + 24)) := by
    intro n xs h
    have h2 := lookup_daySlice_some data day h
    simpa [hoursPerDay] using h2
  cases g with
  | false =>
    cases hS : List.lookup ("Solar Production (kWh)") data.cols with
    | none =>
      simp [create_dispatch_plot, outflowLayer, getCol,
        lookup_daySlice_none data day hS, isKeyError]
    | some xsS =>
      cases hC : List.lookup ("Battery Charge (kWh)") data.cols with
      | none =>
        simp [create_dispatch_plot, outflowLayer, chargeLayer, getCol, seriesAdd,
          slsome hS, len24 hS, lookup_daySlice_none data day hC,
          length_zeros, length_seriesAddU, isKeyError, hoursPerDay]
      | some xsC =>
        cases hB : List.lookup ("Battery Discharge (kWh)") data.cols with
        | none =>
          simp [create_dispatch_plot, outflowLayer, chargeLayer, getCol, seriesAdd,
            slsome hS, len24 hS, slsome hC, len24 hC,
            lookup_daySlice_none data day hB,
            length_zeros, length_seriesAddU, isKeyError, hoursPerDay]
        | some xsB =>
          cases hL : List.lookup ("Lost Load (kWh)") data.cols with
          | none =>
            simp [create_dispatch_plot, outflowLayer, chargeLayer, lostLoadLayer,
              getCol, seriesAdd,
              slsome hS, len24 hS, slsome hC, len24 hC, slsome hB, len24 hB,
              lookup_daySlice_none data day hL,
              length_zeros, length_seriesAddU, isKeyError, hoursPerDay]
          | some xsL =>
            cases hLd : List.lookup ("Load (kWh)") data.cols with
            | none =>
              simp [create_dispatch_plot, outflowLayer, chargeLayer, lostLoadLayer,
                getCol, seriesAdd,
                slsome hS, len24 hS, slsome hC, len24 hC, slsome hB, len24 hB,
                slsome hL, len24 hL, lookup_daySlice_none data day hLd,
                length_zeros, length_seriesAddU, isKeyError, hoursPerDay]
            | some xsLd =>
              cases hCt : List.lookup ("Curtailment (kWh)") data.cols with
              | none =>
                simp [create_dispatch_plot, outflowLayer, chargeLayer, lostLoadLayer,
                  plotSeries, getCol, seriesAdd,
                  slsome hS, len24 hS, slsome hC, len24 hC, slsome hB, len24 hB,
                  slsome hL, len24 hL, slsome hLd, len24 hLd,
                  lookup_daySlice_none data day hCt,
                  length_zeros, length_seriesAddU, isKeyError, hoursPerDay]
              | some xsCt =>
                rcases (by simpa [expectedColumns] using hc :
                    c = "Solar Production (kWh)" ∨ c = "Battery Charge (kWh)" ∨
                    c = "Battery Discharge (kWh)" ∨ c = "Lost Load (kWh)" ∨
                    c = "Load (kWh)" ∨ c = "Curtailment (kWh)") with
                  rfl | rfl | rfl | rfl | rfl | rfl
                · simp [hasCol, hS] at hmiss
                · simp [hasCol, hC] at hmiss
                · simp [hasCol, hB] at hmiss
                · simp [hasCol, hL] at hmiss
                · simp [hasCol, hLd] at hmiss
                · simp [hasCol, hCt] at hmiss
  | true =>
    cases hS : List.lookup ("Solar Production (kWh)") data.cols with
    | none =>
      simp [create_dispatch_plot, outflowLayer, getCol,
        lookup_daySlice_none data day hS, isKeyError]
    | some xsS =>
      cases hC : List.lookup ("Battery Charge (kWh)") data.cols with
      | none =>
        simp [create_dispatch_plot, outflowLayer, chargeLayer, getCol, seriesAdd,
          slsome hS, len24 hS, lookup_daySlice_none data day hC,
          length_zeros, length_seriesAddU, isKeyError, hoursPerDay]
      | some xsC =>
        cases hB : List.lookup ("Battery Discharge (kWh)") data.cols with
        | none =>
          simp [create_dispatch_plot, outflowLayer, chargeLayer, getCol, seriesAdd,
            slsome hS, len24 hS, slsome hC, len24 hC,
            lookup_daySlice_none data day hB,
            length_zeros, length_seriesAddU, isKeyError, hoursPerDay]
        | some xsB =>
          cases hG : List.lookup ("Generator Production (kWh)") data.cols with
          | none =>
            simp [create_dispatch_plot, outflowLayer, chargeLayer, getCol, seriesAdd,
              slsome hS, len24 hS, slsome hC, len24 hC, slsome hB, len24 hB,
              lookup_daySlice_none data day hG,
              length_zeros, length_seriesAddU, isKeyError, hoursPerDay]
          | some xsG =>
            cases hL : List.lookup ("Lost Load (kWh)") data.cols with
            | none =>
              simp [create_dispatch_plot, outflowLayer, chargeLayer, lostLoadLayer,
                getCol, seriesAdd,
                slsome hS, len24 hS, slsome hC, len24 hC, slsome hB, len24 hB,
                slsome hG, len24 hG, lookup_daySlice_none data day hL,
                length_zeros, length_seriesAddU, isKeyError, hoursPerDay]
            | some xsL =>
              cases hLd : List.lookup ("Load (kWh)") data.cols with
              | none =>
                simp [create_dispatch_plot, outflowLayer, chargeLayer, lostLoadLayer,
                  getCol, seriesAdd,
                  slsome hS, len24 hS, slsome hC, len24 hC, slsome hB, len24 hB,
                  slsome hG, len24 hG, slsome hL, len24 hL,
                  lookup_daySlice_none data day hLd,
                  length_zeros, length_seriesAddU, isKeyError, hoursPerDay]
              | some xsLd =>
                cases hCt : List.lookup ("Curtailment (kWh)") data.cols with
                | none =>
                  simp [create_dispatch_plot, outflowLayer, chargeLayer, lostLoadLayer,
                    plotSeries, getCol, seriesAdd,
                    slsome hS, len24 hS, slsome hC, len24 hC, slsome hB, len24 hB,
                    slsome hG, len24 hG, slsome hL, len24 hL, slsome hLd, len24 hLd,
                    lookup_daySlice_none data day hCt,
                    length_zeros, length_seriesAddU, isKeyError, hoursPerDay]
                | some xsCt =>
                  rcases (by simpa [expectedColumns] using hc :
                      c = "Solar Production (kWh)" ∨ c = "Battery Charge (kWh)" ∨
                      c = "Battery Discharge (kWh)" ∨ c = "Generator Production (kWh)" ∨
                      c = "Lost Load (kWh)" ∨ c = "Load (kWh)" ∨
                      c = "Curtailment (kWh)") with
                    rfl | rfl | rfl | rfl | rfl | rfl | rfl
                  · simp [hasCol, hS] at hmiss
                  · simp [hasCol, hC] at hmiss
                  · simp [hasCol, hB] at hmiss
                  · simp [hasCol, hG] at hmiss
                  · simp [hasCol, hL] at hmiss
                  · simp [hasCol, hLd] at hmiss
                  · simp [hasCol, hCt] at hmiss

/-- Every successful run records exactly one save followed by one print,
with the fixed path and message, whatever the inputs were. -/
theorem effects_of_ok (data : DataFrame) (day : Nat) (g : Bool) (out : Output)
    (h : create_dispatch_plot data day g = Except.ok out) :
    out.effects = [Effect.savefig savePath, Effect.printMsg confirmationMessage] := by
  simp only [create_dispatch_plot] at h
  repeat' split at h
  all_goals try simp_all
  rw [← h]

/-- Applying the recorded effects to any file system leaves the rendered
image at the save path, regardless of what was there before. -/
theorem applyEffects_overwrites (fs : FileSystem) :
    applyEffects [Effect.savefig savePath, Effect.printMsg confirmationMessage]
      fs savePath = some imageContent := by
  simp [applyEffects, applyEffect]

/-! ### Observers on run results -/

/-- The run succeeded. -/
def isOk (e : Except PlotError Output) : Bool :=
  match e with
  | Except.ok _ => true
  | Except.error _ => false

/-- The output of a successful run (dummy output for a failed one). -/
def okOutput (e : Except PlotError Output) : Output :=
  match e with
  | Except.ok o => o
  | Except.error _ =>
    { cmds := [], title := "", cumulativeOutflow := [], cumulativeInflow := [],
      effects := [] }

/-- Final value of the `cumulative_outflow` variable of a successful run. -/
def finalOutflow (e : Except PlotError Output) : Series :=
  (okOutput e).cumulativeOutflow

/-- Labels of the stacked `fill_between` bands, in drawing order. -/
def fillLabels (cmds : List DrawCmd) : List String :=
  cmds.filterMap (fun c => match c with
    | DrawCmd.fillBetween l _ _ => some l
    | DrawCmd.plotLine _ _ => none)

/-- Data of the first line plot carrying the given label. -/
def lineData (cmds : List DrawCmd) (lbl : String) : Series :=
  (cmds.filterMap (fun c => match c with
    | DrawCmd.plotLine l ys => if l = lbl then some ys else none
    | DrawCmd.fillBetween _ _ _ => none)).headD []

/-- Value of a stored column at a given hour (0 outside the table). -/
def colValue (data : DataFrame) (n : String) (h : Nat) : ℚ :=
  ((List.lookup n data.cols).getD []).getD h 0

/-- A file system with no files. -/
def emptyFS : FileSystem := fun _ => none

/-! ### Claims -/

/-- Claim C2: for every series carrying the expected columns and every
day index such that the series has fewer than `(dayIndex+1)*24` rows,
rendering fails with the out-of-range error — the `ValueError` raised
when the short day slice is broadcast against the 24-entry accumulator
(`OutOfRangeError` in the specification's naming). -/
theorem dispatch_short_series_fails (data : DataFrame) (day : Nat) (g : Bool)
    (hcols : ∀ n ∈ expectedColumns g, hasCol data.cols n)
    (hrows : data.numRows < (day + 1) * 24) :
    create_dispatch_plot data day g = Except.error PlotError.valueError := by
  refine create_valueError_of_short data day g ?_ hrows
  refine hcols _ ?_
  cases g <;> simp [expectedColumns]

/-- Claim C3: a missing accessed column makes the run fail with the
`KeyError` of a missing column lookup (`MissingFieldError`); an empty
series makes it fail with the length-mismatch `ValueError`
(`EmptyInputError`); and any error propagates unhandled to the script's
single top-level invocation. -/
theorem dispatch_missing_column_and_empty_fail :
    (∀ (data : DataFrame) (day : Nat) (g : Bool) (n : String),
      n ∈ expectedColumns g → ¬ hasCol data.cols n →
      (day + 1) * 24 ≤ data.numRows →
      isKeyError (create_dispatch_plot data day g) = true) ∧
    (∀ (data : DataFrame) (day : Nat) (g : Bool),
      hasCol data.cols ("Solar Production (kWh)") → data.numRows = 0 →
      create_dispatch_plot data day g = Except.error PlotError.valueError) ∧
    (∀ (data : DataFrame) (e : PlotError),
      create_dispatch_plot data 0 false = Except.error e →
      script data = Except.error e) := by
  refine ⟨?_, ?_, ?_⟩
  · intro data day g n hn hmiss hrows
    exact create_keyError_of_missing data day g n hn hmiss hrows
  · intro data day g hS h0
    exact create_valueError_of_short data day g hS (by omega)
  · intro data e h
    simpa [script] using h

/-- Claim C4: when the row count is a multiple of 24 and at least
`(day+1)*24` rows are present, the day slice the renderer plots holds,
for every column, exactly the entries with row indices in
`[24*day, 24*day + 24)`. -/
theorem dispatch_day_slice_rows (data : DataFrame) (day : Nat)
    (_hmul : data.numRows % 24 = 0) (hrows : (day + 1) * 24 ≤ data.numRows)
    (n : String) (xs : Series) (hx : List.lookup n data.cols = some xs) :
    List.lookup n (daySlice data day) =
      some (ilocSlice xs (day * hoursPerDay) (day * hoursPerDay + hoursPerDay)) ∧
    (ilocSlice xs (day * hoursPerDay) (day * hoursPerDay + hoursPerDay)).length = 24 ∧
    ∀ h : Nat, h < 24 →
      (ilocSlice xs (day * hoursPerDay) (day * hoursPerDay + hoursPerDay)).getD h 0 =
        xs.getD (24 * day + h) 0 := by
  have hlen : xs.length = data.numRows := lookup_length data hx
  refine ⟨lookup_daySlice_some data day hx,
    length_daySlice_col data day hx hrows, ?_⟩
  intro h hh
  have he := getD_ilocSlice xs (day * hoursPerDay)
    (day * hoursPerDay + hoursPerDay) h
    (by rw [hoursPerDay]; omega)
    (by rw [hoursPerDay]; omega)
  rw [he]
  congr 1
  rw [hoursPerDay]
  ring

/-- Claim C8: on success the run records exactly one write of the chart
image to the fixed path `results/dispatch_plot.png` — independent of the
day index and the generator flag — followed by the confirmation message;
applying the effects to any prior file system leaves the freshly rendered
image at that path, overwriting whatever was there. -/
theorem dispatch_saves_fixed_path (data : DataFrame) (day : Nat) (g : Bool)
    (out : Output) (h : create_dispatch_plot data day g = Except.ok out) :
    out.effects = [Effect.savefig savePath, Effect.printMsg confirmationMessage] ∧
    savePath = "results/dispatch_plot.png" ∧
    ∀ fs : FileSystem, applyEffects out.effects fs savePath = some imageContent := by
  have he := effects_of_ok data day g out h
  refine ⟨he, rfl, ?_⟩
  intro fs
  rw [he]
  exact applyEffects_overwrites fs

/-- Claim C10: the confirmation message printed on success is the fixed
string naming the `expected_values/results` folder, while the image is
written to `results/dispatch_plot.png`; the named location differs from
the actual one. -/
theorem dispatch_confirmation_message_mismatch (data : DataFrame) (out : Output)
    (h : script data = Except.ok out) :
    out.effects = [Effect.savefig ("results/dispatch_plot.png"),
      Effect.printMsg ("Dispatch plot saved as dispatch_plot.png in expected_values/results folder")] ∧
    savePath ≠ "expected_values/results/dispatch_plot.png" := by
  have he := effects_of_ok data 0 false out (by simpa [script] using h)
  refine ⟨?_, by decide⟩
  simpa [savePath, confirmationMessage] using he

/-- Entrywise value of a sum of two 24-entry series. -/
theorem getD_addU24 {a b : Series} (ha : a.length = 24) (hb : b.length = 24)
    {h : Nat} (hh : h < 24) :
    (seriesAddU a b).getD h 0 = a.getD h 0 + b.getD h 0 :=
  getD_seriesAddU a b h (by omega) (by omega)

/-- Claim C5: the bands are stacked in the fixed order Solar Production,
Battery Charging (a below-axis band bounded by the negated inflow
totals), Battery Discharging, Generator exactly when the flag is set,
then Lost Load. -/
theorem dispatch_layer_order (data : DataFrame) (day : Nat) (g : Bool)
    (sS sC sB sG sL sLd sCt : Series)
    (hS : List.lookup ("Solar Production (kWh)") (daySlice data day) = some sS)
    (hC : List.lookup ("Battery Charge (kWh)") (daySlice data day) = some sC)
    (hB : List.lookup ("Battery Discharge (kWh)") (daySlice data day) = some sB)
    (hG : g = true →
      List.lookup ("Generator Production (kWh)") (daySlice data day) = some sG)
    (hL : List.lookup ("Lost Load (kWh)") (daySlice data day) = some sL)
    (hLd : List.lookup ("Load (kWh)") (daySlice data day) = some sLd)
    (hCt : List.lookup ("Curtailment (kWh)") (daySlice data day) = some sCt)
    (hlS : sS.length = 24) (hlC : sC.length = 24) (hlB : sB.length = 24)
    (hlG : g = true → sG.length = 24) (hlL : sL.length = 24)
    (hlLd : sLd.length = 24) (hlCt : sCt.length = 24) :
    isOk (create_dispatch_plot data day g) = true ∧
    fillLabels (okOutput (create_dispatch_plot data day g)).cmds =
      ["Solar Production", "Battery Charging", "Battery Discharging"]
        ++ (if g = true then ["Generator"] else []) ++ ["Lost Load"] ∧
    (okOutput (create_dispatch_plot data day g)).cmds.getD 1
        (DrawCmd.plotLine ("") []) =
      DrawCmd.fillBetween ("Battery Charging") (seriesNeg zeros)
        (seriesNeg (seriesAddU zeros sC)) := by
  cases g with
  | false =>
    rw [create_ok_shape_false data day sS sC sB sL sLd sCt hS hC hB hL hLd hCt
      hlS hlC hlB hlL hlLd hlCt]
    exact ⟨rfl, by simp [okOutput, fillLabels], rfl⟩
  | true =>
    rw [create_ok_shape_true data day sS sC sB sG sL sLd sCt hS hC hB (hG rfl)
      hL hLd hCt hlS hlC hlB (hlG rfl) hlL hlLd hlCt]
    exact ⟨rfl, by simp [okOutput, fillLabels], rfl⟩

/-- Claim C9: the two running totals are independent — the final inflow
total is exactly the Battery Charge column (the only layer advancing
it), and the final outflow total is exactly Solar plus Battery Discharge
plus Generator-when-enabled, with no Battery Charge contribution. -/
theorem dispatch_totals_independent (data : DataFrame) (day : Nat) (g : Bool)
    (sS sC sB sG sL sLd sCt : Series)
    (hS : List.lookup ("Solar Production (kWh)") (daySlice data day) = some sS)
    (hC : List.lookup ("Battery Charge (kWh)") (daySlice data day) = some sC)
    (hB : List.lookup ("Battery Discharge (kWh)") (daySlice data day) = some sB)
    (hG : g = true →
      List.lookup ("Generator Production (kWh)") (daySlice data day) = some sG)
    (hL : List.lookup ("Lost Load (kWh)") (daySlice data day) = some sL)
    (hLd : List.lookup ("Load (kWh)") (daySlice data day) = some sLd)
    (hCt : List.lookup ("Curtailment (kWh)") (daySlice data day) = some sCt)
    (hlS : sS.length = 24) (hlC : sC.length = 24) (hlB : sB.length = 24)
    (hlG : g = true → sG.length = 24) (hlL : sL.length = 24)
    (hlLd : sLd.length = 24) (hlCt : sCt.length = 24) :
    isOk (create_dispatch_plot data day g) = true ∧
    (∀ h : Nat, h < 24 →
      (okOutput (create_dispatch_plot data day g)).cumulativeInflow.getD h 0 =
        sC.getD h 0) ∧
    (∀ h : Nat, h < 24 →
      (okOutput (create_dispatch_plot data day g)).cumulativeOutflow.getD h 0 =
        sS.getD h 0 + sB.getD h 0 + (if g = true then sG.getD h 0 else 0)) := by
  have l1 : (seriesAddU zeros sS).length = 24 := by
    rw [length_seriesAddU, length_zeros, hlS]; omega
  have l2 : (seriesAddU (seriesAddU zeros sS) sB).length = 24 := by
    rw [length_seriesAddU, l1, hlB]; omega
  cases g with
  | false =>
    rw [create_ok_shape_false data day sS sC sB sL sLd sCt hS hC hB hL hLd hCt
      hlS hlC hlB hlL hlLd hlCt]
    refine ⟨rfl, ?_, ?_⟩
    · intro h hh
      show (seriesAddU zeros sC).getD h 0 = sC.getD h 0
      rw [getD_addU24 length_zeros hlC hh, getD_zeros, zero_add]
    · intro h hh
      show (seriesAddU (seriesAddU zeros sS) sB).getD h 0 = _
      rw [getD_addU24 l1 hlB hh, getD_addU24 length_zeros hlS hh, getD_zeros]
      simp
  | true =>
    rw [create_ok_shape_true data day sS sC sB sG sL sLd sCt hS hC hB (hG rfl)
      hL hLd hCt hlS hlC hlB (hlG rfl) hlL hlLd hlCt]
    refine ⟨rfl, ?_, ?_⟩
    · intro h hh
      show (seriesAddU zeros sC).getD h 0 = sC.getD h 0
      rw [getD_addU24 length_zeros hlC hh, getD_zeros, zero_add]
    · intro h hh
      show (seriesAddU (seriesAddU (seriesAddU zeros sS) sB) sG).getD h 0 = _
      rw [getD_addU24 l2 (hlG rfl) hh, getD_addU24 l1 hlB hh,
        getD_addU24 length_zeros hlS hh, getD_zeros]
      simp

/-- Claim C6: on identical input, the final running outflow totals with
the generator flag on and off differ, hour by hour, by exactly the
Generator Production column of the day slice. -/
theorem dispatch_generator_flag_difference (data : DataFrame) (day : Nat)
    (sS sC sB sG sL sLd sCt : Series)
    (hS : List.lookup ("Solar Production (kWh)") (daySlice data day) = some sS)
    (hC : List.lookup ("Battery Charge (kWh)") (daySlice data day) = some sC)
    (hB : List.lookup ("Battery Discharge (kWh)") (daySlice data day) = some sB)
    (hG : List.lookup ("Generator Production (kWh)") (daySlice data day) = some sG)
    (hL : List.lookup ("Lost Load (kWh)") (daySlice data day) = some sL)
    (hLd : List.lookup ("Load (kWh)") (daySlice data day) = some sLd)
    (hCt : List.lookup ("Curtailment (kWh)") (daySlice data day) = some sCt)
    (hlS : sS.length = 24) (hlC : sC.length = 24) (hlB : sB.length = 24)
    (hlG : sG.length = 24) (hlL : sL.length = 24) (hlLd : sLd.length = 24)
    (hlCt : sCt.length = 24) :
    ∀ h : Nat, h < 24 →
      (finalOutflow (create_dispatch_plot data day true)).getD h 0 -
        (finalOutflow (create_dispatch_plot data day false)).getD h 0 =
      sG.getD h 0 := by
  have l1 : (seriesAddU zeros sS).length = 24 := by
    rw [length_seriesAddU, length_zeros, hlS]; omega
  have l2 : (seriesAddU (seriesAddU zeros sS) sB).length = 24 := by
    rw [length_seriesAddU, l1, hlB]; omega
  intro h hh
  rw [create_ok_shape_true data day sS sC sB sG sL sLd sCt hS hC hB hG hL hLd
    hCt hlS hlC hlB hlG hlL hlLd hlCt,
    create_ok_shape_false data day sS sC sB sL sLd sCt hS hC hB hL hLd hCt
    hlS hlC hlB hlL hlLd hlCt]
  show (seriesAddU (seriesAddU (seriesAddU zeros sS) sB) sG).getD h 0 -
    (seriesAddU (seriesAddU zeros sS) sB).getD h 0 = sG.getD h 0
  rw [getD_addU24 l2 hlG hh]
  ring

/-- Claim C7: the overlaid max-solar curve is exactly Solar Production
plus Curtailment at every hour, and when Curtailment is nonnegative at
every hour the curve dominates the Solar Production curve. -/
theorem dispatch_max_solar_curve (data : DataFrame) (day : Nat) (g : Bool)
    (sS sC sB sG sL sLd sCt : Series)
    (hS : List.lookup ("Solar Production (kWh)") (daySlice data day) = some sS)
    (hC : List.lookup ("Battery Charge (kWh)") (daySlice data day) = some sC)
    (hB : List.lookup ("Battery Discharge (kWh)") (daySlice data day) = some sB)
    (hG : g = true →
      List.lookup ("Generator Production (kWh)") (daySlice data day) = some sG)
    (hL : List.lookup ("Lost Load (kWh)") (daySlice data day) = some sL)
    (hLd : List.lookup ("Load (kWh)") (daySlice data day) = some sLd)
    (hCt : List.lookup ("Curtailment (kWh)") (daySlice data day) = some sCt)
    (hlS : sS.length = 24) (hlC : sC.length = 24) (hlB : sB.length = 24)
    (hlG : g = true → sG.length = 24) (hlL : sL.length = 24)
    (hlLd : sLd.length = 24) (hlCt : sCt.length = 24) :
    isOk (create_dispatch_plot data day g) = true ∧
    lineData (okOutput (create_dispatch_plot data day g)).cmds
      ("Max Solar Production") = seriesAddU sS sCt ∧
    (∀ h : Nat, h < 24 →
      (seriesAddU sS sCt).getD h 0 = sS.getD h 0 + sCt.getD h 0) ∧
    ((∀ h : Nat, h < 24 → 0 ≤ sCt.getD h 0) →
      ∀ h : Nat, h < 24 →
        sS.getD h 0 ≤ (seriesAddU sS sCt).getD h 0) := by
  have key : ∀ h : Nat, h < 24 →
      (seriesAddU sS sCt).getD h 0 = sS.getD h 0 + sCt.getD h 0 := by
    intro h hh
    exact getD_addU24 hlS hlCt hh
  have dom : (∀ h : Nat, h < 24 → 0 ≤ sCt.getD h 0) →
      ∀ h : Nat, h < 24 → sS.getD h 0 ≤ (seriesAddU sS sCt).getD h 0 := by
    intro hnn h hh
    rw [key h hh]
    have := hnn h hh
    linarith
  cases g with
  | false =>
    rw [create_ok_shape_false data day sS sC sB sL sLd sCt hS hC hB hL hLd hCt
      hlS hlC hlB hlL hlLd hlCt]
    exact ⟨rfl, by simp [okOutput, lineData], key, dom⟩
  | true =>
    rw [create_ok_shape_true data day sS sC sB sG sL sLd sCt hS hC hB (hG rfl)
      hL hLd hCt hlS hlC hlB (hlG rfl) hlL hlLd hlCt]
    exact ⟨rfl, by simp [okOutput, lineData], key, dom⟩

/-- Claim C1 (amended): every band spans from the running total to the
running total plus the layer value, and the outflow total advances after
the Solar, Battery Discharge and Generator layers (the inflow total after
Battery Charge) — but the source does not advance `cumulative_outflow`
after the final Lost Load band.  The upper edge of that final band
equals Solar + Battery Discharge + (Generator when enabled) + Lost Load
at every hour, while the final value of the running outflow total omits
the Lost Load term. -/
theorem dispatch_stacked_bands (data : DataFrame) (day : Nat) (g : Bool)
    (sS sC sB sG sL sLd sCt : Series)
    (hS : List.lookup ("Solar Production (kWh)") (daySlice data day) = some sS)
    (hC : List.lookup ("Battery Charge (kWh)") (daySlice data day) = some sC)
    (hB : List.lookup ("Battery Discharge (kWh)") (daySlice data day) = some sB)
    (hG : g = true →
      List.lookup ("Generator Production (kWh)") (daySlice data day) = some sG)
    (hL : List.lookup ("Lost Load (kWh)") (daySlice data day) = some sL)
    (hLd : List.lookup ("Load (kWh)") (daySlice data day) = some sLd)
    (hCt : List.lookup ("Curtailment (kWh)") (daySlice data day) = some sCt)
    (hlS : sS.length = 24) (hlC : sC.length = 24) (hlB : sB.length = 24)
    (hlG : g = true → sG.length = 24) (hlL : sL.length = 24)
    (hlLd : sLd.length = 24) (hlCt : sCt.length = 24) :
    isOk (create_dispatch_plot data day g) = true ∧
    (okOutput (create_dispatch_plot data day g)).cmds =
      [DrawCmd.fillBetween ("Solar Production") zeros (seriesAddU zeros sS),
       DrawCmd.fillBetween ("Battery Charging") (seriesNeg zeros)
         (seriesNeg (seriesAddU zeros sC)),
       DrawCmd.fillBetween ("Battery Discharging") (seriesAddU zeros sS)
         (seriesAddU (seriesAddU zeros sS) sB)]
      ++ (if g = true then
          [DrawCmd.fillBetween ("Generator") (seriesAddU (seriesAddU zeros sS) sB)
            (seriesAddU (seriesAddU (seriesAddU zeros sS) sB) sG)]
        else [])
      ++ [DrawCmd.fillBetween ("Lost Load")
            (if g = true then seriesAddU (seriesAddU (seriesAddU zeros sS) sB) sG
              else seriesAddU (seriesAddU zeros sS) sB)
            (seriesAddU
              (if g = true then seriesAddU (seriesAddU (seriesAddU zeros sS) sB) sG
                else seriesAddU (seriesAddU zeros sS) sB) sL),
          DrawCmd.plotLine ("Load") sLd,
          DrawCmd.plotLine ("Max Solar Production") (seriesAddU sS sCt)] ∧
    (∀ h : Nat, h < 24 →
      (seriesAddU
        (if g = true then seriesAddU (seriesAddU (seriesAddU zeros sS) sB) sG
          else seriesAddU (seriesAddU zeros sS) sB) sL).getD h 0 =
        sS.getD h 0 + sB.getD h 0 + (if g = true then sG.getD h 0 else 0) +
          sL.getD h 0) ∧
    (okOutput (create_dispatch_plot data day g)).cumulativeOutflow =
      (if g = true then seriesAddU (seriesAddU (seriesAddU zeros sS) sB) sG
        else seriesAddU (seriesAddU zeros sS) sB) := by
  have l1 : (seriesAddU zeros sS).length = 24 := by
    rw [length_seriesAddU, length_zeros, hlS]; omega
  have l2 : (seriesAddU (seriesAddU zeros sS) sB).length = 24 := by
    rw [length_seriesAddU, l1, hlB]; omega
  cases g with
  | false =>
    rw [create_ok_shape_false data day sS sC sB sL sLd sCt hS hC hB hL hLd hCt
      hlS hlC hlB hlL hlLd hlCt]
    refine ⟨rfl, by simp [okOutput], ?_, by simp [okOutput]⟩
    intro h hh
    simp only [if_neg Bool.false_ne_true]
    rw [getD_addU24 l2 hlL hh, getD_addU24 l1 hlB hh,
      getD_addU24 length_zeros hlS hh, getD_zeros]
    ring
  | true =>
    have l3 : (seriesAddU (seriesAddU (seriesAddU zeros sS) sB) sG).length = 24 := by
      rw [length_seriesAddU, l2, hlG rfl]; omega
    rw [create_ok_shape_true data day sS sC sB sG sL sLd sCt hS hC hB (hG rfl)
      hL hLd hCt hlS hlC hlB (hlG rfl) hlL hlLd hlCt]
    refine ⟨rfl, by simp [okOutput], ?_, by simp [okOutput]⟩
    intro h hh
    rw [if_pos (rfl : (true : Bool) = true)]
    rw [if_pos (rfl : (true : Bool) = true)]
    rw [getD_addU24 l3 hlL hh, getD_addU24 l2 (hlG rfl) hh,
      getD_addU24 l1 hlB hh, getD_addU24 length_zeros hlS hh, getD_zeros]
    ring

/-! ### Concrete runs

The section makes the `Rat` arithmetic operations semireducible so that
`decide` can evaluate whole runs of the renderer on concrete tables. -/

section ConcreteRuns

attribute [local semireducible] Rat.add

/-- A 24-hour column holding a constant value. -/
def constSeries (q : ℚ) : Series := List.replicate 24 q

/-- One full day of data with all seven columns. -/
def dfEx : DataFrame where
  numRows := 24
  cols := [("Solar Production (kWh)", constSeries 2),
           ("Battery Charge (kWh)", constSeries 1),
           ("Battery Discharge (kWh)", constSeries 3),
           ("Generator Production (kWh)", constSeries 5),
           ("Lost Load (kWh)", constSeries 7),
           ("Load (kWh)", constSeries 4),
           ("Curtailment (kWh)", constSeries 9)]
  rect := by decide

/-- All columns present but not a single row. -/
def dfEmpty : DataFrame where
  numRows := 0
  cols := [("Solar Production (kWh)", []),
           ("Battery Charge (kWh)", []),
           ("Battery Discharge (kWh)", []),
           ("Generator Production (kWh)", []),
           ("Lost Load (kWh)", []),
           ("Load (kWh)", []),
           ("Curtailment (kWh)", [])]
  rect := by decide

/-- One full day of data, but the `Load (kWh)` column is absent. -/
def dfNoLoad : DataFrame where
  numRows := 24
  cols := [("Solar Production (kWh)", constSeries 2),
           ("Battery Charge (kWh)", constSeries 1),
           ("Battery Discharge (kWh)", constSeries 3),
           ("Generator Production (kWh)", constSeries 5),
           ("Lost Load (kWh)", constSeries 7),
           ("Curtailment (kWh)", constSeries 9)]
  rect := by decide

/-- One full day with 1 kWh of lost load every hour and everything else
zero. -/
def dfLostLoad : DataFrame where
  numRows := 24
  cols := [("Solar Production (kWh)", constSeries 0),
           ("Battery Charge (kWh)", constSeries 0),
           ("Battery Discharge (kWh)", constSeries 0),
           ("Generator Production (kWh)", constSeries 0),
           ("Lost Load (kWh)", constSeries 1),
           ("Load (kWh)", constSeries 0),
           ("Curtailment (kWh)", constSeries 0)]
  rect := by decide

/-- Claim C1 as stated fails on the code: on a day with 1 kWh of lost
load every hour and all other outflows zero the run succeeds, but the
final value of the running outflow total at hour 0 is 0, not
Solar + Battery Discharge + Lost Load = 1, because the source never
advances `cumulative_outflow` after the Lost Load band. -/
theorem dispatch_stacked_totals_cex :
    isOk (create_dispatch_plot dfLostLoad 0 false) = true ∧
    (finalOutflow (create_dispatch_plot dfLostLoad 0 false)).getD 0 0 ≠
      colValue dfLostLoad ("Solar Production (kWh)") 0 +
        colValue dfLostLoad ("Battery Discharge (kWh)") 0 +
        colValue dfLostLoad ("Lost Load (kWh)") 0 := by
  decide

/-- Witness for claim C1's amended theorem at a concrete table. -/
theorem dispatch_stacked_bands_witness :
    (seriesAddU
      (if true = true then
        seriesAddU (seriesAddU (seriesAddU zeros (constSeries 2)) (constSeries 3))
          (constSeries 5)
      else seriesAddU (seriesAddU zeros (constSeries 2)) (constSeries 3))
      (constSeries 7)).getD 0 0 =
      (constSeries 2).getD 0 0 + (constSeries 3).getD 0 0 +
        (if true = true then (constSeries 5).getD 0 0 else 0) +
        (constSeries 7).getD 0 0 ∧
    (okOutput (create_dispatch_plot dfEx 0 true)).cumulativeOutflow =
      (if true = true then
        seriesAddU (seriesAddU (seriesAddU zeros (constSeries 2)) (constSeries 3))
          (constSeries 5)
      else seriesAddU (seriesAddU zeros (constSeries 2)) (constSeries 3)) := by
  have T := dispatch_stacked_bands dfEx 0 true (constSeries 2) (constSeries 1)
    (constSeries 3) (constSeries 5) (constSeries 7) (constSeries 4) (constSeries 9)
    (by decide) (by decide) (by decide) (fun _ => by decide) (by decide)
    (by decide) (by decide) (by decide) (by decide) (by decide)
    (fun _ => by decide) (by decide) (by decide) (by decide)
  exact ⟨T.2.2.1 0 (by decide), T.2.2.2⟩

/-- Witness for claim C2 at a concrete table: one day of data, day
index 1 requested. -/
theorem dispatch_short_series_fails_witness :
    create_dispatch_plot dfEx 1 false = Except.error PlotError.valueError :=
  dispatch_short_series_fails dfEx 1 false (by decide) (by decide)

/-- Witness for claim C3 at concrete tables. -/
theorem dispatch_missing_column_and_empty_fail_witness :
    isKeyError (create_dispatch_plot dfNoLoad 0 false) = true ∧
    create_dispatch_plot dfEmpty 3 false = Except.error PlotError.valueError ∧
    script dfEmpty = Except.error PlotError.valueError :=
  ⟨dispatch_missing_column_and_empty_fail.1 dfNoLoad 0 false ("Load (kWh)")
      (by decide) (by decide) (by decide),
   dispatch_missing_column_and_empty_fail.2.1 dfEmpty 3 false (by decide) rfl,
   dispatch_missing_column_and_empty_fail.2.2 dfEmpty PlotError.valueError
      (by decide)⟩

/-- Witness for claim C4 at a concrete table: hour 5 of day 0. -/
theorem dispatch_day_slice_rows_witness :
    (ilocSlice (constSeries 2) (0 * hoursPerDay)
        (0 * hoursPerDay + hoursPerDay)).getD 5 0 =
      (constSeries 2).getD (24 * 0 + 5) 0 :=
  (dispatch_day_slice_rows dfEx 0 (by decide) (by decide)
    ("Solar Production (kWh)") (constSeries 2) (by decide)).2.2 5 (by decide)

/-- Witness for claim C5 at a concrete table, generator enabled. -/
theorem dispatch_layer_order_witness :
    isOk (create_dispatch_plot dfEx 0 true) = true ∧
    fillLabels (okOutput (create_dispatch_plot dfEx 0 true)).cmds =
      ["Solar Production", "Battery Charging", "Battery Discharging"]
        ++ (if true = true then ["Generator"] else []) ++ ["Lost Load"] ∧
    (okOutput (create_dispatch_plot dfEx 0 true)).cmds.getD 1
        (DrawCmd.plotLine ("") []) =
      DrawCmd.fillBetween ("Battery Charging") (seriesNeg zeros)
        (seriesNeg (seriesAddU zeros (constSeries 1))) :=
  dispatch_layer_order dfEx 0 true (constSeries 2) (constSeries 1)
    (constSeries 3) (constSeries 5) (constSeries 7) (constSeries 4) (constSeries 9)
    (by decide) (by decide) (by decide) (fun _ => by decide) (by decide)
    (by decide) (by decide) (by decide) (by decide) (by decide)
    (fun _ => by decide) (by decide) (by decide) (by decide)

/-- Witness for claim C6 at a concrete table, hour 0. -/
theorem dispatch_generator_flag_difference_witness :
    (finalOutflow (create_dispatch_plot dfEx 0 true)).getD 0 0 -
      (finalOutflow (create_dispatch_plot dfEx 0 false)).getD 0 0 =
    (constSeries 5).getD 0 0 :=
  dispatch_generator_flag_difference dfEx 0 (constSeries 2) (constSeries 1)
    (constSeries 3) (constSeries 5) (constSeries 7) (constSeries 4) (constSeries 9)
    (by decide) (by decide) (by decide) (by decide) (by decide) (by decide)
    (by decide) (by decide) (by decide) (by decide) (by decide) (by decide)
    (by decide) (by decide) 0 (by decide)

/-- Witness for claim C7 at a concrete table, hour 0. -/
theorem dispatch_max_solar_curve_witness :
    lineData (okOutput (create_dispatch_plot dfEx 0 false)).cmds
      ("Max Solar Production") = seriesAddU (constSeries 2) (constSeries 9) ∧
    (seriesAddU (constSeries 2) (constSeries 9)).getD 0 0 =
      (constSeries 2).getD 0 0 + (constSeries 9).getD 0 0 ∧
    (constSeries 2).getD 0 0 ≤
      (seriesAddU (constSeries 2) (constSeries 9)).getD 0 0 := by
  have T := dispatch_max_solar_curve dfEx 0 false (constSeries 2) (constSeries 1)
    (constSeries 3) (constSeries 5) (constSeries 7) (constSeries 4) (constSeries 9)
    (by decide) (by decide) (by decide) (fun hgen => by cases hgen) (by decide)
    (by decide) (by decide) (by decide) (by decide) (by decide)
    (fun hgen => by cases hgen) (by decide) (by decide) (by decide)
  exact ⟨T.2.1, T.2.2.1 0 (by decide), T.2.2.2 (by decide) 0 (by decide)⟩

/-- Witness for claim C8 at a concrete run. -/
theorem dispatch_saves_fixed_path_witness :
    (okOutput (create_dispatch_plot dfEx 0 false)).effects =
      [Effect.savefig savePath, Effect.printMsg confirmationMessage] ∧
    savePath = "results/dispatch_plot.png" ∧
    applyEffects (okOutput (create_dispatch_plot dfEx 0 false)).effects
      emptyFS savePath = some imageContent := by
  have T := dispatch_saves_fixed_path dfEx 0 false
    (okOutput (create_dispatch_plot dfEx 0 false)) (by decide)
  exact ⟨T.1, T.2.1, T.2.2 emptyFS⟩

/-- Witness for claim C9 at a concrete table, hour 0. -/
theorem dispatch_totals_independent_witness :
    (okOutput (create_dispatch_plot dfEx 0 true)).cumulativeInflow.getD 0 0 =
      (constSeries 1).getD 0 0 ∧
    (okOutput (create_dispatch_plot dfEx 0 true)).cumulativeOutflow.getD 0 0 =
      (constSeries 2).getD 0 0 + (constSeries 3).getD 0 0 +
        (if true = true then (constSeries 5).getD 0 0 else 0) := by
  have T := dispatch_totals_independent dfEx 0 true (constSeries 2) (constSeries 1)
    (constSeries 3) (constSeries 5) (constSeries 7) (constSeries 4) (constSeries 9)
    (by decide) (by decide) (by decide) (fun _ => by decide) (by decide)
    (by decide) (by decide) (by decide) (by decide) (by decide)
    (fun _ => by decide) (by decide) (by decide) (by decide)
  exact ⟨T.2.1 0 (by decide), T.2.2 0 (by decide)⟩

/-- Witness for claim C10 at a concrete run of the script. -/
theorem dispatch_confirmation_message_mismatch_witness :
    (okOutput (script dfEx)).effects =
      [Effect.savefig ("results/dispatch_plot.png"),
       Effect.printMsg ("Dispatch plot saved as dispatch_plot.png in expected_values/results folder")] ∧
    savePath ≠ "expected_values/results/dispatch_plot.png" := by
  have T := dispatch_confirmation_message_mismatch dfEx (okOutput (script dfEx))
    (by decide)
  exact T

end ConcreteRuns
